import Mathlib

/-!
Verification development for the SimilarLinks recommendation app.

Shallow embedding of the core logic:
* `src/src/utils/storage.ts` — TTL cache over AsyncStorage,
* `src/src/services/api.ts` — backend-first orchestration with Gemini fallback,
* the RecommendationScreen `queryFn` — cache consultation and share-text bypass,
* the Gemini service — `extractJSON`, `retryWithBackoff`, response building,
* the MultiSellerLinks component — fallback search links and link-kind derivation.

External effects (AsyncStorage, fetch, the Gemini SDK, `JSON.parse`) are
modelled as explicit parameters or oracles; everything else is translated
directly from the TypeScript source.
-/

set_option autoImplicit false

/-! ## JS string primitives -/

/-- Is the character list `needle` an initial segment of `hay`? -/
def charsPre : List Char → List Char → Bool
  | [], _ => true
  | _ :: _, [] => false
  | a :: as, b :: bs => a == b && charsPre as bs

/-- Does `needle` occur contiguously anywhere inside `hay`? -/
def charsWithin (needle : List Char) : List Char → Bool
  | [] => needle.isEmpty
  | c :: t => charsPre needle (c :: t) || charsWithin needle t

/-- JS `s.includes(sub)`. -/
def jsIncludes (s sub : String) : Bool :=
  charsWithin sub.toList s.toList

/-- Index of the first occurrence of `c`, counting from `i`. -/
def firstIdxAux (c : Char) : List Char → Nat → Option Nat
  | [], _ => none
  | x :: xs, i => if x == c then some i else firstIdxAux c xs (i + 1)

/-- JS `s.indexOf(c)`, as `none` instead of `-1`. -/
def jsIndexOf (s : String) (c : Char) : Option Nat :=
  firstIdxAux c s.toList 0

/-- JS `s.lastIndexOf(c)`, as `none` instead of `-1`. -/
def jsLastIndexOf (s : String) (c : Char) : Option Nat :=
  (firstIdxAux c s.toList.reverse 0).map (fun i => s.length - 1 - i)

/-- JS `s.substring(a, b)`: clamps both indices to the string length and
swaps them when `a > b`. -/
def jsSubstring (s : String) (a b : Nat) : String :=
  let n := s.length
  let a2 := min a n
  let b2 := min b n
  let lo := min a2 b2
  let hi := max a2 b2
  String.mk ((s.toList.drop lo).take (hi - lo))

/-- Drop a literal leading marker from `s` when present (else return `s`). -/
def dropLead (marker s : String) : String :=
  if charsPre marker.toList s.toList then String.mk (s.toList.drop marker.toList.length) else s

/-- Index of the first occurrence of `needle` in a character list. -/
def findSub (needle : List Char) : List Char → Option Nat
  | [] => if needle.isEmpty then some 0 else none
  | c :: t =>
    if charsPre needle (c :: t) then some 0 else (findSub needle t).map (· + 1)

/-- Drop leading JS whitespace characters. -/
def dropWhileWs : List Char → List Char
  | [] => []
  | c :: t =>
    if c == ' ' || c == '\t' || c == '\n' || c == '\r' then dropWhileWs t
    else c :: t

/-- JS `s.trim()`. -/
def jsTrim (s : String) : String :=
  String.mk ((dropWhileWs ((dropWhileWs s.toList).reverse)).reverse)

/-- Split a character list at every occurrence of `sep`, keeping empty
segments, as JS `s.split(sep)` does for a one-character separator. -/
def splitChar (sep : Char) : List Char → List (List Char)
  | [] => [[]]
  | c :: t =>
    if c == sep then [] :: splitChar sep t
    else
      match splitChar sep t with
      | [] => [[c]]
      | s :: rest => (c :: s) :: rest

/-- JS `s.split(' ')`. -/
def jsSplitSpace (s : String) : List String :=
  (splitChar ' ' s.toList).map String.mk

/-- JS `encodeURIComponent` unreserved set: ASCII alphanumerics and
`- _ . ! ~ * ' ( )`. -/
def isUnreservedURI (c : Char) : Bool :=
  c.isAlphanum || c == '-' || c == '_' || c == '.' || c == '!' || c == '~' ||
    c == '*' || c == Char.ofNat 39 || c == '(' || c == ')'

/-- Uppercase hexadecimal digit for `n < 16`. -/
def hexDigitChar (n : Nat) : Char :=
  if n < 10 then Char.ofNat (48 + n) else Char.ofNat (55 + n)

/-- Percent-encode one byte as `%XY` with uppercase hex. -/
def percentByte (b : Nat) : String :=
  String.mk ['%', hexDigitChar (b / 16), hexDigitChar (b % 16)]

/-- UTF-8 byte sequence of a code point. -/
def utf8ByteList (n : Nat) : List Nat :=
  if n < 0x80 then [n]
  else if n < 0x800 then [0xC0 + n / 64, 0x80 + n % 64]
  else if n < 0x10000 then [0xE0 + n / 4096, 0x80 + n / 64 % 64, 0x80 + n % 64]
  else [0xF0 + n / 262144, 0x80 + n / 4096 % 64, 0x80 + n / 64 % 64, 0x80 + n % 64]

/-- JS `encodeURIComponent`. -/
def encodeURIComponent (s : String) : String :=
  String.join (s.toList.map (fun c =>
    if isUnreservedURI c then String.singleton c
    else String.join ((utf8ByteList c.toNat).map percentByte)))

/-! ## Data model (`src/src/types.ts`) -/

/-- One recommended alternative (`Product` in `types.ts`). -/
structure Product where
  id : String
  brand : String
  model : String
  title : String
  image_url : String
  price_estimate : String
  price_raw : Int
  rating_estimate : Option Int
  rating_count_estimate : Option Int
  specs : List String
  connectivity : List String
  why_pick : String
  tradeoffs : String
  source_url : String
  source_site : String
  deriving DecidableEq

/-- The orchestration result (`RecommendationResponse` in `types.ts`);
`meta` is flattened into its three fields. -/
structure RecommendationResponse where
  source : String
  canonical_url : String
  query_time_iso : String
  category : Option String
  alternatives : List Product
  llm_valid_json : Bool
  image_urls_checked : Bool
  meta_warnings : List String
  deriving DecidableEq

/-! ## Result cache (`src/src/utils/storage.ts`)

AsyncStorage is modelled as a key→value map plus two failure oracles
(`getFail`, `setFail`) saying which keys fail to read or write.  A stored
value is either well-formed JSON of the expected shape or `corrupt`
(`JSON.parse` throws on it). -/

/-- `CachedResult` in `types.ts`. -/
structure CachedResult where
  url : String
  data : RecommendationResponse
  timestamp : Nat
  deriving DecidableEq

/-- A value held by AsyncStorage under some key. -/
inductive StoredVal where
  | entry (e : CachedResult)
  | strList (l : List String)
  | corrupt
  deriving DecidableEq

/-- The AsyncStorage state together with its failure oracles. -/
structure Store where
  items : String → Option StoredVal
  getFail : String → Bool
  setFail : String → Bool

def CACHE_KEY_PREFIX : String := "@decision_rec_cache:"
def RECENT_URLS_KEY : String := "@decision_rec_recent"
def MAX_RECENT : Nat := 10
/-- 10 minutes in milliseconds. -/
def CACHE_TTL : Nat := 10 * 60 * 1000

/-- `AsyncStorage.getItem`: fails on keys named by the `getFail` oracle. -/
def asyncGetItem (st : Store) (k : String) : Except String (Option StoredVal) :=
  if st.getFail k then .error "storage failure" else .ok (st.items k)

/-- `AsyncStorage.setItem`: fails on keys named by the `setFail` oracle. -/
def asyncSetItem (st : Store) (k : String) (v : StoredVal) : Except String Store :=
  if st.setFail k then .error "storage failure"
  else .ok { st with items := fun k2 => if k2 = k then some v else st.items k2 }

/-- `getCachedResult` from `storage.ts`: every failure path (storage error,
missing key, corrupt JSON, expired entry) is absorbed into `none`. -/
def getCachedResult (st : Store) (now : Nat) (url : String) :
    Option RecommendationResponse :=
  match asyncGetItem st (CACHE_KEY_PREFIX ++ url) with
  | .error _ => none
  | .ok none => none
  | .ok (some v) =>
    match v with
    | .entry e => if now - e.timestamp > CACHE_TTL then none else some e.data
    | _ => none

/-- `addToRecentUrls` from `storage.ts` (private helper): dedups, pushes the
url to the front, trims to `MAX_RECENT`; absorbs every storage failure. -/
def addToRecentUrls (st : Store) (url : String) : Store :=
  match asyncGetItem st RECENT_URLS_KEY with
  | .error _ => st
  | .ok v =>
    let recent : Option (List String) :=
      match v with
      | none => some []
      | some (.strList l) => some l
      | some _ => none
    match recent with
    | none => st
    | some l =>
      let filtered := l.filter (fun u => u ≠ url)
      let updated := (url :: filtered).take MAX_RECENT
      match asyncSetItem st RECENT_URLS_KEY (.strList updated) with
      | .error _ => st
      | .ok st2 => st2

/-- `cacheResult` from `storage.ts`: writes the entry then updates the
recent list; a failing write leaves the store unchanged and never throws. -/
def cacheResult (st : Store) (now : Nat) (url : String)
    (data : RecommendationResponse) : Store :=
  match asyncSetItem st (CACHE_KEY_PREFIX ++ url) (.entry ⟨url, data, now⟩) with
  | .error _ => st
  | .ok st2 => addToRecentUrls st2 url

/-- `getRecentUrls` from `storage.ts`: storage failure or corrupt JSON
yields `[]`.  A stored value of a different JSON shape is returned as-is by
the JS code; since it is not a string list it is modelled as `[]`. -/
def getRecentUrls (st : Store) : List String :=
  match asyncGetItem st RECENT_URLS_KEY with
  | .error _ => []
  | .ok none => []
  | .ok (some (.strList l)) => l
  | .ok (some _) => []

/-! ## Orchestrator (`src/src/services/api.ts`, `getRecommendations`)

The backend HTTP call is modelled by a `BackendOutcome`; the Gemini
fallback by an `Except String RecommendationResponse`.  The model returns
the orchestration result together with the number of Primary and Secondary
provider invocations. -/

/-- The parsed JSON body of a 2xx backend response: either it fails the
structural check (`!data || !data.alternatives || !Array.isArray(...)`) or
it carries a response with an alternatives array. -/
inductive BackendJson where
  | badShape
  | withAlts (resp : RecommendationResponse)
  deriving DecidableEq

/-- Outcome of the `fetchWithTimeout` call against the backend. -/
inductive BackendOutcome where
  /-- `fetch` threw a network error; rethrown with its own message. -/
  | netError (msg : String)
  /-- The AbortController fired. -/
  | timeout
  /-- `response.ok` was false. -/
  | httpError (status : Nat)
  /-- 2xx but `response.json()` threw. -/
  | badJson (msg : String)
  /-- 2xx with parsed JSON body. -/
  | ok (j : BackendJson)
  deriving DecidableEq

/-- The response the backend branch returns, when it returns one. -/
def backendSuccess : BackendOutcome → Option RecommendationResponse
  | .ok (.withAlts r) => some r
  | _ => none

/-- The error message the backend branch throws on each failure path
(`api.ts` lines 40–41, 84, 91, 103). -/
def backendFailureMsg : BackendOutcome → Option String
  | .netError m => some m
  | .timeout => some "Request timeout - backend is taking too long"
  | .httpError status => some ("Backend error: " ++ toString status)
  | .badJson m => some ("Backend returned invalid JSON: " ++ m)
  | .ok .badShape =>
    some "Backend returned invalid JSON: Invalid response structure from backend"
  | .ok (.withAlts _) => none

/-- `getRecommendations` from `api.ts`: backend first; on any backend
failure fall through to Gemini; if Gemini also fails, throw the aggregate
error built at lines 118–122.  Result is paired with (primary invocation
count, secondary invocation count). -/
def getRecommendationsM (backend : BackendOutcome)
    (gemini : Except String RecommendationResponse) :
    Except String RecommendationResponse × Nat × Nat :=
  match backendSuccess backend with
  | some r => (.ok r, 1, 0)
  | none =>
    match gemini with
    | .ok r => (.ok r, 1, 1)
    | .error m =>
      (.error ("Both backend and Gemini failed. Gemini error: " ++ m), 1, 1)

/-! ## RecommendationScreen `queryFn`

The react-query `queryFn` of the Recommendation screen: with share text it
always fetches fresh (never consulting the cache) and caches the result;
without share text a cache hit short-circuits, otherwise it fetches and
caches.  Every fetch goes through `getRecommendations(url, false, ...)`,
i.e. with `refresh = false`.  The result is paired with the provider call
counts and the final store. -/

def queryFn (url : String) (shareText : Option String) (st : Store)
    (now : Nat) (backend : BackendOutcome)
    (gemini : Except String RecommendationResponse) :
    Except String RecommendationResponse × Nat × Nat × Store :=
  let fetchAndCache :=
    match getRecommendationsM backend gemini with
    | (.ok r, p, s) => (Except.ok r, p, s, cacheResult st now url r)
    | (.error e, p, s) => (Except.error e, p, s, st)
  match shareText with
  | some _ => fetchAndCache
  | none =>
    match getCachedResult st now url with
    | some d => (.ok d, 0, 0, st)
    | none => fetchAndCache

/-! ## Gemini service (`geminiService.ts`): tolerant JSON extraction

`JSON.parse` is an external library call; it is modelled by an abstract
`parse : String → Option J`.  `extractJSON` is translated directly from the
source: a raw parse, then the fenced-code-block regex
(with its captured group trimmed), then the first-`{`-to-last-`}`
substring.  A `JSON.parse` exception raised inside the catch block
propagates to the caller (`parseFailure`); the terminal
`Could not extract JSON from response` error is `couldNotExtract`. -/

/-- How `extractJSON` can throw. -/
inductive ExtractErr where
  /-- A `JSON.parse` exception from inside the catch block, carrying the
  string whose parse failed. -/
  | parseFailure (attempted : String)
  /-- The terminal `Could not extract JSON from response` error. -/
  | couldNotExtract
  deriving DecidableEq

/-- The capture of the first match of the fenced-block regex
(three backticks, optional `json` marker, lazy body, three backticks),
already trimmed as in the source.  The body of the first match is the text
between the first and second occurrence of three backticks. -/
def fencedContent (text : String) : Option String :=
  let cs := text.toList
  match findSub "```".toList cs with
  | none => none
  | some i =>
    let after := cs.drop (i + 3)
    match findSub "```".toList after with
    | none => none
    | some j => some (jsTrim (dropLead "json" (String.mk (after.take j))))

/-- `extractJSON` from `geminiService.ts`. -/
def extractJSON {J : Type} (parse : String → Option J) (text : String) :
    Except ExtractErr J :=
  match parse text with
  | some j => .ok j
  | none =>
    match fencedContent text with
    | some c =>
      match parse c with
      | some j => .ok j
      | none => .error (.parseFailure c)
    | none =>
      match jsIndexOf text '\x7b', jsLastIndexOf text '\x7d' with
      | some a, some b =>
        match parse (jsSubstring text a (b + 1)) with
        | some j => .ok j
        | none => .error (.parseFailure (jsSubstring text a (b + 1)))
      | _, _ => .error .couldNotExtract

/-- Extraction strategy 1 of the spec: raw parse of the whole text. -/
def strategyRaw {J : Type} (parse : String → Option J) (text : String) :
    Option J :=
  parse text

/-- Extraction strategy 2 of the spec: parse the fenced-block capture. -/
def strategyFenced {J : Type} (parse : String → Option J) (text : String) :
    Option J :=
  (fencedContent text).bind parse

/-- Extraction strategy 3 of the spec: parse the first-`{`-to-last-`}`
substring. -/
def strategyBraces {J : Type} (parse : String → Option J) (text : String) :
    Option J :=
  match jsIndexOf text '\x7b', jsLastIndexOf text '\x7d' with
  | some a, some b => parse (jsSubstring text a (b + 1))
  | _, _ => none

/-! ## Gemini service: bounded retry with key rotation

`model.generateContent` is modelled as `fn : Nat → GemCall α`, giving the
outcome of the n-th loop iteration.  The loop counter `attempt` of the
source is carried explicitly; `fuel` is the number of iterations the
`for` loop still has (`fuel = maxRetries - attempt`), so the source's
`isLastAttempt` (`attempt === maxRetries - 1`) is `fuel = 1`, i.e. the
matched remainder is `0`.  The module-global `currentKeyIndex` is threaded
as `keyIdx`; the JS guard `currentKeyIndex < GEMINI_API_KEYS.length - 1`
is `keyIdx + 1 < numKeys`. -/

/-- One outcome of `model.generateContent`. -/
inductive GemCall (α : Type) where
  | ok (v : α)
  | err (msg : String)
  deriving DecidableEq

/-- `error?.message?.includes('503') || error?.message?.includes('overloaded')`. -/
def is503 (msg : String) : Bool :=
  jsIncludes msg "503" || jsIncludes msg "overloaded"

/-- `error?.message?.includes('quota') || error?.message?.includes('429')`. -/
def isQuota (msg : String) : Bool :=
  jsIncludes msg "quota" || jsIncludes msg "429"

/-- Observable outcome of a `retryWithBackoff` run: the value or thrown
error, how many `fn` invocations were made, the backoff delays slept, and
the final key index. -/
structure RetryResult (α : Type) where
  result : Except String α
  calls : Nat
  delays : List Nat
  finalKeyIndex : Nat

/-- The loop body of `retryWithBackoff`. -/
def retryAux {α : Type} (fn : Nat → GemCall α) (numKeys baseDelay : Nat) :
    Nat → Nat → Nat → List Nat → RetryResult α
  | 0, attempt, keyIdx, delays =>
    ⟨.error "Max retries reached", attempt, delays, keyIdx⟩
  | fuel + 1, attempt, keyIdx, delays =>
    match fn attempt with
    | .ok v => ⟨.ok v, attempt + 1, delays, keyIdx⟩
    | .err m =>
      if isQuota m && keyIdx + 1 < numKeys then
        retryAux fn numKeys baseDelay fuel (attempt + 1) (keyIdx + 1) delays
      else if !is503 m || fuel == 0 then
        ⟨.error m, attempt + 1, delays, keyIdx⟩
      else
        retryAux fn numKeys baseDelay fuel (attempt + 1) keyIdx
          (delays ++ [baseDelay * 2 ^ attempt])

/-- `retryWithBackoff` from `geminiService.ts`, starting from
`currentKeyIndex = 0`. -/
def retryWithBackoff {α : Type} (fn : Nat → GemCall α)
    (numKeys maxRetries baseDelay : Nat) : RetryResult α :=
  retryAux fn numKeys baseDelay maxRetries 0 0 []

/-! ## Gemini service: response building

Models `getRecommendationsFromGemini` from the successful JSON extraction
onward (lines 238–311 of the source): the emptiness check, the per-entry
mapping with JS `||` defaulting, the slice to 3, and the warning. -/

/-- A raw entry of the extracted `data.alternatives` array; `none` models
a missing (`undefined`) field. -/
structure RawAlt where
  id : Option String
  brand : Option String
  model : Option String
  title : Option String
  image_url : Option String
  price_estimate : Option String
  price_raw : Option Int
  rating_estimate : Option Int
  rating_count_estimate : Option Int
  specs : Option (List String)
  connectivity : Option (List String)
  why_pick : Option String
  tradeoffs : Option String
  source_site : Option String
  deriving DecidableEq

/-- JS `v || d` for string-valued fields: `undefined` and the empty string
are falsy. -/
def jsOrStr (v : Option String) (d : String) : String :=
  match v with
  | none => d
  | some s => if s = "" then d else s

/-- JS `v || 0` for number-valued fields (`0` is falsy, so the default
changes nothing when the value is `0`). -/
def jsOrInt (v : Option Int) : Int :=
  match v with
  | none => 0
  | some n => n

/-- The `data.alternatives.map` body of `getRecommendationsFromGemini`. -/
def mapAlternative (category : String) (index : Nat) (alt : RawAlt) : Product :=
  let brand := jsOrStr alt.brand "Unknown"
  let model := jsOrStr alt.model ""
  let sourceSite := jsOrStr alt.source_site "amazon"
  let broadSearch := jsTrim (category ++ " " ++ brand)
  let query := encodeURIComponent broadSearch
  let searchUrl :=
    if sourceSite = "flipkart" then
      "https://www.flipkart.com/search?q=" ++ query ++ "&sort=relevance"
    else
      "https://www.amazon.in/s?k=" ++ query ++ "&sort=relevance"
  let placeholderUrl :=
    "https://via.placeholder.com/400x400/3B82F6/FFFFFF?text=" ++
      encodeURIComponent brand
  { id := jsOrStr alt.id ("alt" ++ toString (index + 1))
    brand := brand
    model := model
    title := jsOrStr alt.title "Unknown Product"
    image_url := jsOrStr alt.image_url placeholderUrl
    price_estimate := jsOrStr alt.price_estimate "₹0"
    price_raw := jsOrInt alt.price_raw
    rating_estimate := alt.rating_estimate
    rating_count_estimate := alt.rating_count_estimate
    specs := alt.specs.getD []
    connectivity := alt.connectivity.getD []
    why_pick := jsOrStr alt.why_pick "Good alternative product"
    tradeoffs := jsOrStr alt.tradeoffs "None specified"
    source_url := searchUrl
    source_site := sourceSite }

/-- `getRecommendationsFromGemini` after JSON extraction: validate
non-emptiness, map the entries, slice to 3, attach warnings and metadata. -/
def geminiBuildResponse (url : String) (nowIso : String)
    (dataCategory : Option String) (dataAlternatives : List RawAlt) :
    Except String RecommendationResponse :=
  if dataAlternatives.isEmpty then
    .error "No alternatives found in AI response"
  else
    let category := jsOrStr dataCategory "products"
    let alternatives :=
      dataAlternatives.enum.map (fun p => mapAlternative category p.1 p.2)
    let validAlternatives := alternatives.take 3
    let warnings :=
      if validAlternatives.length < 3 then
        ["Only " ++ toString validAlternatives.length ++ " alternatives found"]
      else []
    .ok
      { source :=
          if jsIncludes url "amazon" then "amazon"
          else if jsIncludes url "flipkart" then "flipkart"
          else "unknown"
        canonical_url := url
        query_time_iso := nowIso
        category := some (jsOrStr dataCategory "Unknown Category")
        alternatives := validAlternatives
        llm_valid_json := true
        image_urls_checked := false
        meta_warnings := warnings }

/-! ## Seller resolver fallback (`MultiSellerLinks` component)

`getFallbackSearchLinks` synthesizes one search link per marketplace,
excluding the current platform; the `kind` badge of a rendered link is
derived from the URL shape by `isDirectLink` / `isSearchLink`
(lines 211–212 of the component). -/

/-- A seller link as built by the component. -/
structure SellerLink where
  platform : String
  url : String
  price : Option String
  available : Bool
  icon : String
  deriving DecidableEq

/-- `seller.url.includes('/p/') || ... ('/dp/') || ... ('/prn/') || ... ('/pn/')`. -/
def isDirectLink (url : String) : Bool :=
  jsIncludes url "/p/" || jsIncludes url "/dp/" ||
    jsIncludes url "/prn/" || jsIncludes url "/pn/"

/-- `seller.url.includes('/search') || seller.url.includes('/s?')`. -/
def isSearchLink (url : String) : Bool :=
  jsIncludes url "/search" || jsIncludes url "/s?"

/-- `getFallbackSearchLinks` from the `MultiSellerLinks` component. -/
def getFallbackSearchLinks (productName productBrand currentPlatform : String) :
    List SellerLink :=
  let searchQuery :=
    encodeURIComponent
      (productBrand ++ " " ++
        String.intercalate " " ((jsSplitSpace productName).take 5))
  (if currentPlatform ≠ "flipkart" then
      [{ platform := "Flipkart"
         url := "https://www.flipkart.com/search?q=" ++ searchQuery
         price := none, available := true, icon := "🛒" }]
    else []) ++
  (if currentPlatform ≠ "amazon" then
      [{ platform := "Amazon"
         url := "https://www.amazon.in/s?k=" ++ searchQuery
         price := none, available := true, icon := "📦" }]
    else []) ++
  [{ platform := "Meesho"
     url := "https://www.meesho.com/search?q=" ++ searchQuery
     price := none, available := true, icon := "🏪" },
   { platform := "Snapdeal"
     url := "https://www.snapdeal.com/search?keyword=" ++ searchQuery
     price := none, available := true, icon := "🛍️" },
   { platform := "JioMart"
     url := "https://www.jiomart.com/search/" ++ searchQuery
     price := none, available := true, icon := "🏬" },
   { platform := "Blinkit"
     url := "https://blinkit.com/s/?q=" ++ searchQuery
     price := none, available := true, icon := "⚡" },
   { platform := "Instamart"
     url := "https://www.swiggy.com/instamart/search?q=" ++ searchQuery
     price := none, available := true, icon := "🚀" },
   { platform := "Zepto"
     url := "https://www.zepto.com/search?query=" ++ searchQuery
     price := none, available := true, icon := "⏱️" }]

/-! ## A concrete JSON parser

A small recursive-descent JSON parser (objects, arrays, strings without
escapes, integers, literals) used to instantiate the abstract `JSON.parse`
parameter on concrete inputs.  Analysis fuel bounds the nesting depth. -/

/-- A JSON value. -/
inductive MJ where
  | null
  | bool (b : Bool)
  | num (n : Int)
  | str (s : String)
  | arr (xs : List MJ)
  | obj (fields : List (String × MJ))

/-- Skip ASCII whitespace. -/
def skipWs : List Char → List Char
  | [] => []
  | c :: t =>
    if c == ' ' || c == '\t' || c == '\n' || c == '\r' then skipWs t else c :: t

/-- Body of a JSON string after the opening quote; escapes unsupported. -/
def parseStrBody : List Char → List Char → Option (String × List Char)
  | [], _ => none
  | c :: rest, acc =>
    if c == '"' then some (String.mk acc.reverse, rest)
    else if c == '\\' then none
    else parseStrBody rest (c :: acc)

/-- Decimal digits to a number. -/
def digitsToNat (ds : List Char) : Nat :=
  ds.foldl (fun a c => a * 10 + (c.toNat - 48)) 0

/-- A JSON integer (optional minus sign, digits). -/
def parseNum (cs : List Char) : Option (MJ × List Char) :=
  match cs with
  | '-' :: rest =>
    match List.span Char.isDigit rest with
    | ([], _) => none
    | (ds, r) => some (.num (-(digitsToNat ds : Int)), r)
  | _ =>
    match List.span Char.isDigit cs with
    | ([], _) => none
    | (ds, r) => some (.num (digitsToNat ds : Int), r)

mutual

/-- A JSON value. -/
def parseVal : Nat → List Char → Option (MJ × List Char)
  | 0, _ => none
  | fuel + 1, cs0 =>
    let cs := skipWs cs0
    if charsPre "null".toList cs then some (.null, cs.drop 4)
    else if charsPre "true".toList cs then some (.bool true, cs.drop 4)
    else if charsPre "false".toList cs then some (.bool false, cs.drop 5)
    else
      match cs with
      | [] => none
      | c :: rest =>
        if c == '"' then (parseStrBody rest []).map (fun p => (.str p.1, p.2))
        else if c == '\x7b' then
          match skipWs rest with
          | '\x7d' :: r => some (.obj [], r)
          | cs2 => parseMembers fuel cs2 []
        else if c == '[' then
          match skipWs rest with
          | ']' :: r => some (.arr [], r)
          | cs2 => parseItems fuel cs2 []
        else if c.isDigit || c == '-' then parseNum (c :: rest)
        else none

/-- Members of a JSON object, after `{` (at a key). -/
def parseMembers : Nat → List Char → List (String × MJ) →
    Option (MJ × List Char)
  | 0, _, _ => none
  | fuel + 1, cs, acc =>
    match skipWs cs with
    | '"' :: rest =>
      match parseStrBody rest [] with
      | none => none
      | some (k, r1) =>
        match skipWs r1 with
        | ':' :: r2 =>
          match parseVal fuel (skipWs r2) with
          | none => none
          | some (v, r3) =>
            match skipWs r3 with
            | ',' :: r4 => parseMembers fuel r4 (acc ++ [(k, v)])
            | '\x7d' :: r4 => some (.obj (acc ++ [(k, v)]), r4)
            | _ => none
        | _ => none
    | _ => none

/-- Items of a JSON array, after `[` (at a value). -/
def parseItems : Nat → List Char → List MJ → Option (MJ × List Char)
  | 0, _, _ => none
  | fuel + 1, cs, acc =>
    match parseVal fuel (skipWs cs) with
    | none => none
    | some (v, r1) =>
      match skipWs r1 with
      | ',' :: r2 => parseItems fuel r2 (acc ++ [v])
      | ']' :: r2 => some (.arr (acc ++ [v]), r2)
      | _ => none

end

/-- The whole-string JSON parse: a value followed only by whitespace. -/
def miniParse (s : String) : Option MJ :=
  match parseVal (2 * s.length + 2) (skipWs s.toList) with
  | some (v, rest) => if skipWs rest = [] then some v else none
  | none => none

/-! ## Concrete fixtures -/

/-- A well-formed alternative. -/
def sampleProduct : Product :=
  { id := "1", brand := "Sony", model := "WF-C500", title := "Sony WF-C500"
    image_url := "https://example.com/img.jpg", price_estimate := "₹4990"
    price_raw := 4990, rating_estimate := some 4, rating_count_estimate := some 1000
    specs := ["BT 5.0"], connectivity := ["Bluetooth"]
    why_pick := "Good value", tradeoffs := "No ANC"
    source_url := "https://www.amazon.in/s?k=earbuds%20Sony&sort=relevance"
    source_site := "amazon" }

/-- A structurally valid backend response with one alternative. -/
def sampleResp : RecommendationResponse :=
  { source := "amazon", canonical_url := "https://www.amazon.in/dp/B000TEST"
    query_time_iso := "2024-01-01T00:00:00Z", category := some "earbuds"
    alternatives := [sampleProduct], llm_valid_json := true
    image_urls_checked := true, meta_warnings := [] }

/-- A structurally valid backend response whose alternatives array is empty. -/
def emptyResp : RecommendationResponse :=
  { sampleResp with alternatives := [] }

/-- A structurally valid backend response with six alternatives. -/
def sixResp : RecommendationResponse :=
  { sampleResp with
    alternatives :=
      [{ sampleProduct with id := "1" }, { sampleProduct with id := "2" },
       { sampleProduct with id := "3" }, { sampleProduct with id := "4" },
       { sampleProduct with id := "5" }, { sampleProduct with id := "6" }] }

/-- An alternative with empty `id`, `brand`, `title` and `source_url`. -/
def badProduct : Product :=
  { sampleProduct with id := "", brand := "", title := "", source_url := "" }

/-- A structurally valid backend response carrying `badProduct`. -/
def badResp : RecommendationResponse :=
  { sampleResp with alternatives := [badProduct] }

/-- A store holding a fresh cache entry for url `"u"` written at time 100. -/
def stHit : Store :=
  { items := fun k =>
      if k = CACHE_KEY_PREFIX ++ "u" then some (.entry ⟨"u", sampleResp, 100⟩)
      else none
    getFail := fun _ => false
    setFail := fun _ => false }

/-- A store whose every read and write fails. -/
def stFail : Store :=
  { items := fun _ => none, getFail := fun _ => true, setFail := fun _ => true }

/-! ## Claim theorems -/

/-- C1: with `forceRefresh = false` and no share text, a cache entry younger
than the TTL makes `queryFn` return the cached payload with zero Primary and
zero Secondary provider calls; with share text supplied the cache check is
skipped and a fresh fetch (one Primary call) is performed whose result does
not depend on the cache contents. -/
theorem c1_cache_check :
    (∀ (st : Store) (now : Nat) (url : String) (e : CachedResult),
      st.getFail (CACHE_KEY_PREFIX ++ url) = false →
      st.items (CACHE_KEY_PREFIX ++ url) = some (.entry e) →
      now - e.timestamp ≤ CACHE_TTL →
      getCachedResult st now url = some e.data)
    ∧ (∀ (url : String) (st : Store) (now : Nat) (b : BackendOutcome)
        (g : Except String RecommendationResponse) (d : RecommendationResponse),
      getCachedResult st now url = some d →
      queryFn url none st now b g = (.ok d, 0, 0, st))
    ∧ (∀ (url t : String) (st : Store) (now : Nat) (b : BackendOutcome)
        (g : Except String RecommendationResponse),
      (queryFn url (some t) st now b g).1 = (getRecommendationsM b g).1
      ∧ (queryFn url (some t) st now b g).2.1 = 1) := by
  refine ⟨?_, ?_, ?_⟩
  · intro st now url e hg hi hle
    simp only [getCachedResult, asyncGetItem, hg, hi]
    simp only [Bool.false_eq_true, if_false]
    rw [if_neg (by omega)]
  · intro url st now b g d h
    simp [queryFn, h]
  · intro url t st now b g
    unfold queryFn getRecommendationsM
    cases hb : backendSuccess b <;> cases g <;> simp

/-- C1 witness: a concrete fresh cache hit. -/
theorem c1_cache_check_witness :
    queryFn "u" none stHit 200 BackendOutcome.timeout (Except.error "g")
      = (Except.ok sampleResp, 0, 0, stHit) :=
  c1_cache_check.2.1 "u" stHit 200 BackendOutcome.timeout (Except.error "g")
    sampleResp (by rfl)

/-- C2: every Primary failure (network error, timeout, non-2xx status,
unparsable or malformed body) is recovered by one Secondary invocation: the
orchestration result is exactly the Secondary outcome (or the aggregate
fallback error), never the Primary error. -/
theorem c2_primary_failure_recovered :
    ∀ (b : BackendOutcome) (g : Except String RecommendationResponse),
      backendSuccess b = none →
      getRecommendationsM b g =
        ((match g with
          | .ok r => .ok r
          | .error m =>
            .error ("Both backend and Gemini failed. Gemini error: " ++ m)),
          1, 1) := by
  intro b g hb
  unfold getRecommendationsM
  rw [hb]
  cases g <;> rfl

/-- C2 witness: a Primary timeout recovered by a Secondary success. -/
theorem c2_primary_failure_recovered_witness :
    getRecommendationsM BackendOutcome.timeout (Except.ok sampleResp)
      = (Except.ok sampleResp, 1, 1) :=
  c2_primary_failure_recovered BackendOutcome.timeout (Except.ok sampleResp) rfl

/-- `charsPre` holds of a list against itself. -/
theorem charsPre_self (l : List Char) : charsPre l l = true := by
  induction l with
  | nil => rfl
  | cons c t ih => simp [charsPre, ih]

/-- `charsWithin` holds of a list inside itself. -/
theorem charsWithin_self (l : List Char) : charsWithin l l = true := by
  cases l with
  | nil => rfl
  | cons c t => simp [charsWithin, charsPre_self]

/-- A list occurs inside anything that ends with it. -/
theorem charsWithin_suffix (pre l : List Char) :
    charsWithin l (pre ++ l) = true := by
  induction pre with
  | nil => simpa using charsWithin_self l
  | cons c t ih => simp [charsWithin, ih]

/-- A string `includes` any string it ends with. -/
theorem jsIncludes_append (x m : String) : jsIncludes (x ++ m) m = true := by
  unfold jsIncludes
  rw [show (x ++ m).toList = x.toList ++ m.toList from String.data_append x m]
  exact charsWithin_suffix x.toList m.toList

/-- C3 counterexample: when the Primary fails with `ECONNREFUSED` and the
Secondary with `quota exceeded`, the single error surfaced to the caller
carries the Secondary cause but does not describe the Primary cause. -/
theorem c3_counterexample :
    (getRecommendationsM (.netError "ECONNREFUSED") (.error "quota exceeded")).1
      = .error "Both backend and Gemini failed. Gemini error: quota exceeded"
    ∧ backendFailureMsg (.netError "ECONNREFUSED") = some "ECONNREFUSED"
    ∧ jsIncludes "Both backend and Gemini failed. Gemini error: quota exceeded"
        "ECONNREFUSED" = false :=
  ⟨rfl, rfl, by rfl⟩

/-- C3 amended: when both providers fail, the caller receives one aggregate
error that names both providers as failed and carries the Secondary failure
cause (the Primary cause is not included), and no alternatives are
returned. -/
theorem c3_aggregate_error :
    ∀ (b : BackendOutcome) (m : String),
      backendSuccess b = none →
      (getRecommendationsM b (.error m)).1
          = .error ("Both backend and Gemini failed. Gemini error: " ++ m)
        ∧ jsIncludes ("Both backend and Gemini failed. Gemini error: " ++ m) m
            = true
        ∧ ∀ r, (getRecommendationsM b (.error m)).1 ≠ .ok r := by
  intro b m hb
  refine ⟨?_, jsIncludes_append _ m, ?_⟩
  · unfold getRecommendationsM
    rw [hb]
  · intro r h
    unfold getRecommendationsM at h
    rw [hb] at h
    exact absurd h (by simp)

/-- C3 witness: the aggregate error at a concrete double failure. -/
theorem c3_aggregate_error_witness :
    (getRecommendationsM BackendOutcome.timeout (.error "quota")).1
        = .error ("Both backend and Gemini failed. Gemini error: " ++ "quota")
      ∧ jsIncludes ("Both backend and Gemini failed. Gemini error: " ++ "quota")
          "quota" = true
      ∧ ∀ r, (getRecommendationsM BackendOutcome.timeout (.error "quota")).1
          ≠ .ok r :=
  c3_aggregate_error BackendOutcome.timeout "quota" rfl

/-- C4 counterexample: a structurally valid Primary response whose
alternatives list is empty (length 0, below any positive `minAccepted`) is
returned to the caller with zero Secondary invocations. -/
theorem c4_counterexample :
    getRecommendationsM (.ok (.withAlts emptyResp)) (.error "unused")
        = (.ok emptyResp, 1, 0)
      ∧ emptyResp.alternatives.length = 0 :=
  ⟨rfl, rfl⟩

/-- C4 amended: the Secondary provider is invoked (exactly once) iff the
Primary call fails or its body lacks an alternatives array; a structurally
valid Primary response is returned as-is regardless of how few alternatives
it holds. -/
theorem c4_fallback_trigger :
    ∀ (b : BackendOutcome) (g : Except String RecommendationResponse),
      ((getRecommendationsM b g).2.2 = 1 ↔ backendSuccess b = none)
      ∧ (∀ r, backendSuccess b = some r →
          getRecommendationsM b g = (.ok r, 1, 0)) := by
  intro b g
  constructor
  · unfold getRecommendationsM
    cases hb : backendSuccess b <;> cases g <;> simp
  · intro r hr
    unfold getRecommendationsM
    rw [hr]

/-- C4 witness: a valid Primary response short-circuits the Secondary. -/
theorem c4_fallback_trigger_witness :
    getRecommendationsM (.ok (.withAlts sampleResp)) (.error "g")
      = (.ok sampleResp, 1, 0) :=
  (c4_fallback_trigger (.ok (.withAlts sampleResp)) (.error "g")).2
    sampleResp rfl

/-- The response text of the C5 counterexample: a fenced block whose body is
not JSON, followed by a parsable first-`{`-to-last-`}` substring. -/
def t0str : String := "```bad``` \x7b\"a\":1\x7d"

/-- C5 counterexample: on `t0str` the raw parse fails, the fenced-block
strategy matches but its body does not parse, and `extractJSON` throws that
parse failure even though the third (brace-substring) strategy would
succeed — so the first succeeding strategy does not win and the failure is
not the terminal `MalformedPayload` error. -/
theorem c5_counterexample :
    extractJSON miniParse t0str = .error (.parseFailure "bad")
    ∧ strategyBraces miniParse t0str = some (MJ.obj [("a", MJ.num 1)]) :=
  ⟨rfl, rfl⟩

/-- C5 amended: extraction tries raw parse, then the fenced block, then the
brace substring, first success winning, except that a fenced-block match
commits extraction to strategy 2: when the fenced body fails to parse the
raised error is that parse failure and strategy 3 is never tried.  The
terminal `Could not extract JSON` error occurs iff the raw parse fails, no
fenced block matches, and no `{` or no `}` exists. -/
theorem c5_extraction_order :
    ∀ {J : Type} (parse : String → Option J) (text : String),
      (∀ j, strategyRaw parse text = some j → extractJSON parse text = .ok j)
      ∧ (∀ c j, parse text = none → fencedContent text = some c →
          parse c = some j → extractJSON parse text = .ok j)
      ∧ (∀ c, parse text = none → fencedContent text = some c →
          parse c = none → extractJSON parse text = .error (.parseFailure c))
      ∧ (∀ a b j, parse text = none → fencedContent text = none →
          jsIndexOf text '\x7b' = some a → jsLastIndexOf text '\x7d' = some b →
          parse (jsSubstring text a (b + 1)) = some j →
          extractJSON parse text = .ok j)
      ∧ (extractJSON parse text = .error .couldNotExtract ↔
          strategyRaw parse text = none ∧ fencedContent text = none ∧
            (jsIndexOf text '\x7b' = none ∨ jsLastIndexOf text '\x7d' = none)) := by
  intro J parse text
  refine ⟨?_, ?_, ?_, ?_, ?_⟩
  · intro j h
    simp only [strategyRaw] at h
    simp [extractJSON, h]
  · intro c j hp hf hc
    simp [extractJSON, hp, hf, hc]
  · intro c hp hf hc
    simp [extractJSON, hp, hf, hc]
  · intro a b j hp hf ha hb2 hs
    simp [extractJSON, hp, hf, ha, hb2, hs]
  · cases hp : parse text with
    | some j => simp [extractJSON, hp, strategyRaw]
    | none =>
      cases hf : fencedContent text with
      | some c =>
        cases hc : parse c with
        | some j => simp [extractJSON, hp, hf, hc, strategyRaw]
        | none => simp [extractJSON, hp, hf, hc, strategyRaw]
      | none =>
        cases ha : jsIndexOf text '\x7b' with
        | none => simp [extractJSON, hp, hf, ha, strategyRaw]
        | some a =>
          cases hb2 : jsLastIndexOf text '\x7d' with
          | none => simp [extractJSON, hp, hf, ha, hb2, strategyRaw]
          | some b =>
            cases hs : parse (jsSubstring text a (b + 1)) with
            | some j => simp [extractJSON, hp, hf, ha, hb2, hs, strategyRaw]
            | none => simp [extractJSON, hp, hf, ha, hb2, hs, strategyRaw]

/-- C5 witness: the raw-parse strategy wins on a plain JSON object. -/
theorem c5_extraction_order_witness :
    extractJSON miniParse "\x7b\"a\":1\x7d" = .ok (MJ.obj [("a", MJ.num 1)]) :=
  (c5_extraction_order miniParse "\x7b\"a\":1\x7d").1 (MJ.obj [("a", MJ.num 1)])
    (by rfl)

/-- C6 counterexample: a structurally valid Primary response with
`maxAccepted + 3 = 6` alternatives is returned to the caller with all six
entries — the Primary path performs no truncation. -/
theorem c6_counterexample :
    (getRecommendationsM (.ok (.withAlts sixResp)) (.error "unused")).1
        = .ok sixResp
      ∧ sixResp.alternatives.length = 3 + 3
      ∧ sixResp.alternatives.length ≠ 3 :=
  ⟨rfl, rfl, by decide⟩

/-- C6 amended: the Secondary path truncates to the policy constant 3 (a
mapped list of length at least 3 always yields exactly 3 alternatives),
while a structurally valid Primary response is returned untruncated. -/
theorem c6_truncation :
    (∀ (url nowIso : String) (cat : Option String) (alts : List RawAlt),
      3 ≤ alts.length →
      ∃ r, geminiBuildResponse url nowIso cat alts = .ok r
        ∧ r.alternatives.length = 3)
    ∧ (∀ (resp : RecommendationResponse)
        (g : Except String RecommendationResponse),
        (getRecommendationsM (.ok (.withAlts resp)) g).1 = .ok resp) := by
  constructor
  · intro url nowIso cat alts h3
    have hne : ¬ (alts.isEmpty = true) := by
      cases alts with
      | nil => simp at h3
      | cons a t => simp
    unfold geminiBuildResponse
    rw [if_neg hne]
    refine ⟨_, rfl, ?_⟩
    simp only [List.length_take, List.length_map, List.enum_length]
    omega
  · intro resp g
    rfl

/-- A raw Secondary entry with every field present. -/
def sampleRaw : RawAlt :=
  { id := some "1", brand := some "Sony", model := some "WF-C500"
    title := some "Sony WF-C500", image_url := none, price_estimate := none
    price_raw := some 4990, rating_estimate := some 4
    rating_count_estimate := some 1000, specs := some ["BT 5.0"]
    connectivity := none, why_pick := some "Good value"
    tradeoffs := some "No ANC", source_site := some "amazon" }

/-- C6 witness: six raw Secondary entries yield exactly three alternatives. -/
theorem c6_truncation_witness :
    ∃ r, geminiBuildResponse "https://www.amazon.in/dp/B000TEST" "t"
        (some "earbuds") (List.replicate 6 sampleRaw) = .ok r
      ∧ r.alternatives.length = 3 :=
  c6_truncation.1 "https://www.amazon.in/dp/B000TEST" "t" (some "earbuds")
    (List.replicate 6 sampleRaw) (by decide)

/-- The fallback seller links of Scenario B. -/
def fallbackB : List SellerLink :=
  getFallbackSearchLinks "Realme Buds T300" "Realme" "amazon"

/-- C7 counterexample: the returned list carries a Blinkit link whose URL
matches neither the search-page nor the direct-product pattern, so that
link is not tagged `kind=Search`. -/
theorem c7_counterexample :
    SellerLink.mk "Blinkit"
        "https://blinkit.com/s/?q=Realme%20Realme%20Buds%20T300" none true "⚡"
        ∈ fallbackB
      ∧ isSearchLink "https://blinkit.com/s/?q=Realme%20Realme%20Buds%20T300"
          = false
      ∧ isDirectLink "https://blinkit.com/s/?q=Realme%20Realme%20Buds%20T300"
          = false := by
  refine ⟨?_, rfl, rfl⟩
  show _ ∈ fallbackB
  decide

/-- C7 amended: for `currentPlatform = "amazon"` the fallback returns, in
this fixed order, Flipkart, Meesho, Snapdeal, JioMart, Blinkit, Instamart,
Zepto with deterministic synthesized search URLs; Amazon is excluded; every
link has `available = true`; the Flipkart, Meesho, Snapdeal and JioMart
links (as well as Instamart and Zepto) are tagged `kind=Search`, Blinkit
matching neither pattern. -/
theorem c7_fallback_links :
    (fallbackB.map fun l => l.platform)
        = ["Flipkart", "Meesho", "Snapdeal", "JioMart", "Blinkit",
           "Instamart", "Zepto"]
      ∧ (fallbackB.map fun l => l.url)
        = ["https://www.flipkart.com/search?q=Realme%20Realme%20Buds%20T300",
           "https://www.meesho.com/search?q=Realme%20Realme%20Buds%20T300",
           "https://www.snapdeal.com/search?keyword=Realme%20Realme%20Buds%20T300",
           "https://www.jiomart.com/search/Realme%20Realme%20Buds%20T300",
           "https://blinkit.com/s/?q=Realme%20Realme%20Buds%20T300",
           "https://www.swiggy.com/instamart/search?q=Realme%20Realme%20Buds%20T300",
           "https://www.zepto.com/search?query=Realme%20Realme%20Buds%20T300"]
      ∧ (fallbackB.all fun l => l.available) = true
      ∧ ((fallbackB.filter fun l => isSearchLink l.url && !isDirectLink l.url).map
          fun l => l.platform)
        = ["Flipkart", "Meesho", "Snapdeal", "JioMart", "Instamart", "Zepto"]
      ∧ (fallbackB.all fun l => l.platform != "Amazon") = true :=
  ⟨rfl, rfl, rfl, rfl, rfl⟩

/-- The `generateContent` outcomes of the C8 counterexample run: a
quota-class error first, then transient-overload errors, then success. -/
def fnC8 : Nat → GemCall Unit :=
  fun n =>
    if n = 0 then .err "429 quota exceeded"
    else if n = 3 then .ok ()
    else .err "503 Service Unavailable"

/-- C8 counterexample: with two credentials and `maxRetries = 3`, a quota
rotation at the first call consumes one of the three attempts: only three
`generateContent` calls are made and the run fails, although a fourth call
(which an independent rotation counter would have allowed) would have
succeeded. -/
theorem c8_counterexample :
    (retryWithBackoff fnC8 2 3 2000).result = .error "503 Service Unavailable"
      ∧ (retryWithBackoff fnC8 2 3 2000).calls = 3
      ∧ (retryWithBackoff fnC8 2 3 2000).delays = [4000]
      ∧ (retryWithBackoff fnC8 2 3 2000).finalKeyIndex = 1
      ∧ fnC8 3 = .ok () :=
  ⟨rfl, rfl, rfl, rfl, rfl⟩

/-- The number of `fn` calls of a retry run never exceeds the attempts left. -/
theorem retryAux_calls_le {α : Type} (fn : Nat → GemCall α)
    (numKeys baseDelay : Nat) :
    ∀ (fuel attempt keyIdx : Nat) (delays : List Nat),
      (retryAux fn numKeys baseDelay fuel attempt keyIdx delays).calls
        ≤ attempt + fuel := by
  intro fuel
  induction fuel with
  | zero =>
    intro attempt keyIdx delays
    simp [retryAux]
  | succ f ih =>
    intro attempt keyIdx delays
    simp only [retryAux]
    split
    · show attempt + 1 ≤ attempt + (f + 1)
      omega
    · split
      · have := ih (attempt + 1) (keyIdx + 1) delays
        omega
      · split
        · show attempt + 1 ≤ attempt + (f + 1)
          omega
        · have := ih (attempt + 1) keyIdx (delays ++ [baseDelay * 2 ^ attempt])
          omega

/-- C8 amended: the Secondary retry loop makes at most `maxRetries` (3)
`generateContent` calls in total, with exponential backoff
(`baseDelay * 2 ^ attempt`) on transient-overload errors; a quota-class
error with a backup credential available rotates immediately — adding no
backoff delay — but the rotation consumes one attempt of the same bounded
counter, so rotation and backoff are not independent budgets. -/
theorem c8_retry_budget :
    (∀ {α : Type} (fn : Nat → GemCall α) (numKeys maxRetries baseDelay : Nat),
      (retryWithBackoff fn numKeys maxRetries baseDelay).calls ≤ maxRetries)
    ∧ (∀ {α : Type} (fn : Nat → GemCall α) (numKeys maxRetries baseDelay : Nat)
        (m : String),
        fn 0 = .err m → isQuota m = true → 2 ≤ numKeys → 1 ≤ maxRetries →
        retryWithBackoff fn numKeys maxRetries baseDelay
          = retryAux fn numKeys baseDelay (maxRetries - 1) 1 1 [])
    ∧ (∀ {α : Type} (fn : Nat → GemCall α) (numKeys maxRetries baseDelay : Nat)
        (m : String),
        fn 0 = .err m → isQuota m = false → is503 m = true → 2 ≤ maxRetries →
        retryWithBackoff fn numKeys maxRetries baseDelay
          = retryAux fn numKeys baseDelay (maxRetries - 1) 1 0
              [baseDelay * 2 ^ 0]) := by
  refine ⟨?_, ?_, ?_⟩
  · intro α fn numKeys maxRetries baseDelay
    simpa using retryAux_calls_le fn numKeys baseDelay maxRetries 0 0 []
  · intro α fn numKeys maxRetries baseDelay m h0 hq hn hm
    obtain ⟨M, rfl⟩ : ∃ M, maxRetries = M + 1 := ⟨maxRetries - 1, by omega⟩
    unfold retryWithBackoff
    simp only [retryAux, h0, hq]
    rw [if_pos (by simp; omega)]
    simp
  · intro α fn numKeys maxRetries baseDelay m h0 hq h5 hm
    obtain ⟨M, rfl⟩ : ∃ M, maxRetries = M + 2 := ⟨maxRetries - 2, by omega⟩
    unfold retryWithBackoff
    simp only [retryAux, h0, hq, h5]
    simp

/-- C8 witness: a concrete quota rotation consumes an attempt (fuel drops
from 3 to 2) while adding no backoff delay. -/
theorem c8_retry_budget_witness :
    retryWithBackoff fnC8 2 3 2000 = retryAux fnC8 2 2000 2 1 1 [] :=
  c8_retry_budget.2.1 fnC8 2 3 2000 "429 quota exceeded" rfl rfl
    (by omega) (by omega)

/-- A nonempty string stays nonempty under right-append. -/
theorem append_ne_empty_left (s t : String) (hs : s.data ≠ []) :
    s ++ t ≠ "" := by
  intro h
  apply hs
  have h2 := congrArg String.data h
  rw [String.data_append] at h2
  exact (List.append_eq_nil.mp h2).1

/-- `jsOrStr` with a nonempty default is nonempty. -/
theorem jsOrStr_ne_empty (v : Option String) (d : String) (hd : d ≠ "") :
    jsOrStr v d ≠ "" := by
  cases v with
  | none => exact hd
  | some s =>
    show (if s = "" then d else s) ≠ ""
    split
    · exact hd
    · assumption

/-- C9 counterexample: a structurally valid Primary response carrying an
alternative with empty `id`, `brand`, `title` and `source_url` is surfaced
to the caller unchanged — no per-entry validation drops it. -/
theorem c9_counterexample :
    (getRecommendationsM (.ok (.withAlts badResp)) (.error "unused")).1
        = .ok badResp
      ∧ badResp.alternatives = [badProduct]
      ∧ badProduct.id = "" ∧ badProduct.brand = "" ∧ badProduct.title = ""
      ∧ badProduct.source_url = "" :=
  ⟨rfl, rfl, rfl, rfl, rfl, rfl⟩

/-- C9 amended: on the Secondary path every mapped alternative has
non-empty `id`, `brand`, `title` and `source_url` — missing fields are
filled with defaults rather than dropped — while the Primary path returns
its response without any per-entry validation. -/
theorem c9_field_defaults :
    (∀ (category : String) (index : Nat) (alt : RawAlt),
      (mapAlternative category index alt).id ≠ ""
      ∧ (mapAlternative category index alt).brand ≠ ""
      ∧ (mapAlternative category index alt).title ≠ ""
      ∧ (mapAlternative category index alt).source_url ≠ "")
    ∧ (∀ (resp : RecommendationResponse)
        (g : Except String RecommendationResponse),
      (getRecommendationsM (.ok (.withAlts resp)) g).1 = .ok resp) := by
  constructor
  · intro category index alt
    refine ⟨?_, ?_, ?_, ?_⟩
    · exact jsOrStr_ne_empty alt.id ("alt" ++ toString (index + 1))
        (append_ne_empty_left "alt" _ (by decide))
    · exact jsOrStr_ne_empty alt.brand "Unknown" (by decide)
    · exact jsOrStr_ne_empty alt.title "Unknown Product" (by decide)
    · show (if jsOrStr alt.source_site "amazon" = "flipkart" then _ else _) ≠ ""
      split
      · exact append_ne_empty_left "https://www.flipkart.com/search?q=" _
          (by decide)
      · exact append_ne_empty_left "https://www.amazon.in/s?k=" _ (by decide)
  · intro resp g
    rfl

/-- C10: no public cache operation propagates a failure: a storage read
error, a missing key, corrupt stored JSON or an expired entry all make
`getCachedResult` return `null`; a failing write makes `cacheResult` leave
the store untouched; a read error or corrupt data make `getRecentUrls`
return the empty list. -/
theorem c10_storage_absorbs_failures :
    (∀ (st : Store) (now : Nat) (url : String),
      st.getFail (CACHE_KEY_PREFIX ++ url) = true →
      getCachedResult st now url = none)
    ∧ (∀ (st : Store) (now : Nat) (url : String),
      st.items (CACHE_KEY_PREFIX ++ url) = none →
      getCachedResult st now url = none)
    ∧ (∀ (st : Store) (now : Nat) (url : String),
      st.items (CACHE_KEY_PREFIX ++ url) = some .corrupt →
      getCachedResult st now url = none)
    ∧ (∀ (st : Store) (now : Nat) (url : String) (e : CachedResult),
      st.items (CACHE_KEY_PREFIX ++ url) = some (.entry e) →
      CACHE_TTL < now - e.timestamp →
      getCachedResult st now url = none)
    ∧ (∀ (st : Store) (now : Nat) (url : String)
        (data : RecommendationResponse),
      st.setFail (CACHE_KEY_PREFIX ++ url) = true →
      cacheResult st now url data = st)
    ∧ (∀ st : Store, st.getFail RECENT_URLS_KEY = true → getRecentUrls st = [])
    ∧ (∀ st : Store, st.items RECENT_URLS_KEY = some .corrupt →
      getRecentUrls st = []) := by
  refine ⟨?_, ?_, ?_, ?_, ?_, ?_, ?_⟩
  · intro st now url h
    simp [getCachedResult, asyncGetItem, h]
  · intro st now url h
    cases hg : st.getFail (CACHE_KEY_PREFIX ++ url) <;>
      simp [getCachedResult, asyncGetItem, h, hg]
  · intro st now url h
    cases hg : st.getFail (CACHE_KEY_PREFIX ++ url) <;>
      simp [getCachedResult, asyncGetItem, h, hg]
  · intro st now url e h hexp
    cases hg : st.getFail (CACHE_KEY_PREFIX ++ url) <;>
      simp [getCachedResult, asyncGetItem, h, hg, hexp]
  · intro st now url data h
    simp [cacheResult, asyncSetItem, h]
  · intro st h
    simp [getRecentUrls, asyncGetItem, h]
  · intro st h
    cases hg : st.getFail RECENT_URLS_KEY <;>
      simp [getRecentUrls, asyncGetItem, h, hg]

/-- C10 witness: a store where every read and write fails. -/
theorem c10_storage_absorbs_failures_witness :
    getCachedResult stFail 0 "u" = none
      ∧ cacheResult stFail 0 "u" sampleResp = stFail
      ∧ getRecentUrls stFail = [] :=
  ⟨c10_storage_absorbs_failures.1 stFail 0 "u" rfl,
   c10_storage_absorbs_failures.2.2.2.2.1 stFail 0 "u" sampleResp rfl,
   c10_storage_absorbs_failures.2.2.2.2.2.1 stFail rfl⟩
